import Mathlib

/-!
Shallow embedding of the chat-lol rendezvous/signaling coordinator
(Convex backend: `convex/sessions.ts`, `convex/friends.ts`,
`convex/livePings.ts`, `convex/webrtc_signaling.ts`).

The Convex database is modelled as lists of rows kept in creation order:
an indexed query whose index fields are all pinned by equalities returns
its matches in creation order, so `.first()` is `List.find?` and
`.collect()` is `List.filter`.  Document ids are drawn from a single
`nextId` counter, as Convex ids are globally unique.  A mutation is a
function `DB → args → Except Err (result × DB)`: a thrown `ConvexError`
aborts the transaction, so the error branch carries no state and the
caller keeps the pre-call database.  `Date.now()` is passed in as an
explicit `now` argument.
-/

namespace ChatLol

/-- Row of the `users` table (`convex/schema.ts`). -/
structure User where
  id : Nat
  username : String
  token : String
  createdAt : Nat
deriving DecidableEq, Repr

/-- Row of the `sessions` table (`convex/schema.ts`). -/
structure Session where
  id : Nat
  sessionId : String
  userId : Nat
  userToken : String
  isActive : Bool
  lastPing : Nat
  createdAt : Nat
  updatedAt : Nat
deriving DecidableEq, Repr

/-- Row of the `friendships` table (`convex/schema.ts`). -/
structure Friendship where
  id : Nat
  user1Id : Nat
  user2Id : Nat
  createdAt : Nat
deriving DecidableEq, Repr

/-- Status of a `friendRequests` row. -/
inductive FRStatus where
  | pending
  | accepted
  | rejected
deriving DecidableEq, Repr

/-- Row of the `friendRequests` table (`convex/schema.ts`). -/
structure FriendRequest where
  id : Nat
  fromUserId : Nat
  toUserId : Nat
  status : FRStatus
  createdAt : Nat
  updatedAt : Nat
deriving DecidableEq, Repr

/-- Status of a `connectionRequests` row. -/
inductive CRStatus where
  | sent
  | replied
  | completed
deriving DecidableEq, Repr

/-- Row of the `connectionRequests` table (`convex/schema.ts`).  The WebRTC
offer/answer payloads are opaque (`v.any()`), modelled as strings. -/
structure ConnReq where
  id : Nat
  toSessionId : String
  fromSessionId : String
  fromUsername : String
  requestData : String
  responseData : Option String
  status : CRStatus
  createdAt : Nat
  updatedAt : Nat
deriving DecidableEq, Repr

/-- Status of a `livePings` row. -/
inductive PingStatus where
  | sent
  | responded
deriving DecidableEq, Repr

/-- Row of the `livePings` table. -/
structure LivePing where
  id : Nat
  pingerSessionId : String
  targetSessionId : String
  status : PingStatus
deriving DecidableEq, Repr

/-- The Convex database state: one creation-ordered list per table, plus
the id counter feeding `ctx.db.insert`. -/
structure DB where
  users : List User
  sessions : List Session
  friendships : List Friendship
  friendRequests : List FriendRequest
  connectionRequests : List ConnReq
  livePings : List LivePing
  nextId : Nat
deriving DecidableEq, Repr

/-- The distinct `ConvexError` messages thrown by the embedded operations. -/
inductive Err where
  | invalidUserToken
  | noActiveSessionFound
  | targetSessionNotFoundOrInactive
  | targetUserNotFound
  | onlyConnectToFriends
  | connectionRequestAlreadyPending
  | connectionRequestNotFound
  | notAuthorizedToRespond
  | requestNotInSentState
  | sessionNotOwned
  | friendRequestNotFound
  | notYourFriendRequest
  | friendRequestAlreadyResponded
deriving DecidableEq, Repr

/-- Source: `ctx.db.query("users").withIndex("by_token", ...).first()`. -/
def findUserByToken (db : DB) (tok : String) : Option User :=
  db.users.find? (fun u => u.token == tok)

/-- Source: `ctx.db.query("users").withIndex("by_username", ...).first()`. -/
def findUserByName (db : DB) (name : String) : Option User :=
  db.users.find? (fun u => u.username == name)

/-- Source: query on `sessions` `by_userToken`, filtered to `isActive`,
then `.first()` — the pattern used by `webrtc_signaling.ts` to locate the
caller's session. -/
def firstActiveSessionForToken (db : DB) (tok : String) : Option Session :=
  db.sessions.find? (fun s => s.userToken == tok && s.isActive)

/-- Source: query on `sessions` `by_sessionId`, `.first()`. -/
def findSessionBySessionId (db : DB) (sid : String) : Option Session :=
  db.sessions.find? (fun s => s.sessionId == sid)

/-- Source: `ctx.db.get(userId)` on the `users` table. -/
def getUserById (db : DB) (uid : Nat) : Option User :=
  db.users.find? (fun u => u.id == uid)

/-- Source: `ctx.db.get(requestId)` on the `connectionRequests` table. -/
def getConnReq (db : DB) (rid : Nat) : Option ConnReq :=
  db.connectionRequests.find? (fun r => r.id == rid)

/-- The two-ordering friendship lookup shared by `verifyFriendship`
(`webrtc_signaling.ts` lines 6-16) and the already-friends check of
`sendFriendRequest` (`friends.ts` lines 40-46): `first()` on the
`by_users` index in one order, or-else the other order. -/
def existingFriendship (db : DB) (id1 id2 : Nat) : Option Friendship :=
  match db.friendships.find? (fun f => f.user1Id == id1 && f.user2Id == id2) with
  | some f => some f
  | none => db.friendships.find? (fun f => f.user1Id == id2 && f.user2Id == id1)

/-- Source: `verifyFriendship` in `webrtc_signaling.ts` (returns
`!!friendship`). -/
def verifyFriendship (db : DB) (userId1 userId2 : Nat) : Bool :=
  (existingFriendship db userId1 userId2).isSome

/-- The two-ordering friend-request lookup of `sendFriendRequest`
(`friends.ts` lines 52-59): `first()` on `by_users` in one order,
or-else the other order. -/
def existingFriendRequest (db : DB) (id1 id2 : Nat) : Option FriendRequest :=
  match db.friendRequests.find? (fun r => r.fromUserId == id1 && r.toUserId == id2) with
  | some r => some r
  | none => db.friendRequests.find? (fun r => r.fromUserId == id2 && r.toUserId == id1)

/-- State produced by the `ctx.db.insert("connectionRequests", ...)` of
`sendConnectionRequest` (`webrtc_signaling.ts` lines 83-91). -/
def connInsert (db : DB) (toSessionId fromSid fromName offerData : String)
    (now : Nat) : DB :=
  { db with
    connectionRequests := db.connectionRequests ++
      [{ id := db.nextId
         toSessionId := toSessionId
         fromSessionId := fromSid
         fromUsername := fromName
         requestData := offerData
         responseData := none
         status := CRStatus.sent
         createdAt := now
         updatedAt := now }]
    nextId := db.nextId + 1 }

/-- Source: `sendConnectionRequest` in `convex/webrtc_signaling.ts`
(lines 19-95).  Note that the operation takes no source-session
argument: the source session is the first active session row matching
the caller's `userToken`, and the duplicate check only looks for an
existing request with status `"sent"` for the ordered session pair. -/
def sendConnectionRequest (db : DB) (toSessionId userToken offerData : String)
    (now : Nat) : Except Err (Nat × DB) :=
  match findUserByToken db userToken with
  | none => .error .invalidUserToken
  | some requestingUser =>
    match firstActiveSessionForToken db userToken with
    | none => .error .noActiveSessionFound
    | some fromSession =>
      match findSessionBySessionId db toSessionId with
      | none => .error .targetSessionNotFoundOrInactive
      | some targetSession =>
        if !targetSession.isActive then .error .targetSessionNotFoundOrInactive
        else
          match getUserById db targetSession.userId with
          | none => .error .targetUserNotFound
          | some targetUser =>
            if !verifyFriendship db requestingUser.id targetUser.id then
              .error .onlyConnectToFriends
            else if (db.connectionRequests.find? (fun r =>
                r.toSessionId == toSessionId && r.status == CRStatus.sent
                  && r.fromSessionId == fromSession.sessionId)).isSome then
              .error .connectionRequestAlreadyPending
            else
              .ok (db.nextId,
                connInsert db toSessionId fromSession.sessionId
                  requestingUser.username offerData now)

/-- State produced by the `ctx.db.patch` of `replyToConnectionRequest`
(`webrtc_signaling.ts` lines 121-125). -/
def replyPatch (db : DB) (requestId : Nat) (answerData : String) (now : Nat) :
    DB :=
  { db with
    connectionRequests := db.connectionRequests.map (fun r =>
      if r.id == requestId then
        { r with
          status := CRStatus.replied
          responseData := some answerData
          updatedAt := now }
      else r) }

/-- Source: `replyToConnectionRequest` in `convex/webrtc_signaling.ts`
(lines 98-129). -/
def replyToConnectionRequest (db : DB) (requestId : Nat)
    (userToken answerData : String) (now : Nat) : Except Err DB :=
  match findUserByToken db userToken with
  | none => .error .invalidUserToken
  | some _user =>
    match firstActiveSessionForToken db userToken with
    | none => .error .noActiveSessionFound
    | some session =>
      match getConnReq db requestId with
      | none => .error .connectionRequestNotFound
      | some request =>
        if !(request.toSessionId == session.sessionId) then
          .error .notAuthorizedToRespond
        else if !(request.status == CRStatus.sent) then
          .error .requestNotInSentState
        else
          .ok (replyPatch db requestId answerData now)

/-- Source: `getSentConnectionRequests` in `convex/webrtc_signaling.ts`
(lines 132-177).  After validating the bearer token it uses the
caller-supplied `sessionId` directly ("Use the provided session ID
directly instead of looking it up"), collecting every request with that
target and status `"sent"` — there is no check that the caller owns the
supplied session. -/
def getSentConnectionRequests (db : DB) (userToken sessionId : String) :
    Except Err (List ConnReq) :=
  match findUserByToken db userToken with
  | none => .error .invalidUserToken
  | some _user =>
    .ok (db.connectionRequests.filter (fun r =>
      r.toSessionId == sessionId && r.status == CRStatus.sent))

/-- State produced by the `ctx.db.patch` of `markConnectionCompleted`
(`webrtc_signaling.ts` lines 246-249). -/
def completePatch (db : DB) (requestId : Nat) (now : Nat) : DB :=
  { db with
    connectionRequests := db.connectionRequests.map (fun r =>
      if r.id == requestId then
        { r with status := CRStatus.completed, updatedAt := now }
      else r) }

/-- Source: `markConnectionCompleted` in `convex/webrtc_signaling.ts`
(lines 223-253).  Only the bearer token's validity and the existence of
the request are checked before the patch. -/
def markConnectionCompleted (db : DB) (requestId : Nat) (userToken : String)
    (now : Nat) : Except Err DB :=
  match findUserByToken db userToken with
  | none => .error .invalidUserToken
  | some _user =>
    match getConnReq db requestId with
    | none => .error .connectionRequestNotFound
    | some _request =>
      .ok (completePatch db requestId now)

/-- Projection returned by `getUserSessions` (`sessions.ts` lines 123-127). -/
structure SessionInfo where
  sessionId : String
  lastPing : Nat
  createdAt : Nat
deriving DecidableEq, Repr

/-- Source: `getUserSessions` in `convex/sessions.ts` (lines 105-129):
after validating the token, collects the caller's sessions over the
`by_userId` index filtered to `isActive` — no heartbeat-recency filter
is applied on this read path. -/
def getUserSessions (db : DB) (userToken : String) :
    Except Err (List SessionInfo) :=
  match findUserByToken db userToken with
  | none => .error .invalidUserToken
  | some user =>
    .ok ((db.sessions.filter (fun s => s.userId == user.id && s.isActive)).map
      (fun s => { sessionId := s.sessionId
                  lastPing := s.lastPing
                  createdAt := s.createdAt }))

/-- Source: `deactivateSession` in `convex/sessions.ts` (lines 83-103):
looks the session up by handle first; a missing row returns success
("Already gone") before the token is ever compared. -/
def deactivateSession (db : DB) (sessionId userToken : String) : Except Err DB :=
  match findSessionBySessionId db sessionId with
  | none => .ok db
  | some session =>
    if !(session.userToken == userToken) then .error .sessionNotOwned
    else .ok { db with sessions := db.sessions.filter (fun s => !(s.id == session.id)) }

/-- Result object of `sendFriendRequest` (`friends.ts` lines 8-82), which
reports failures through a `success` flag instead of throwing. -/
inductive FROutcome where
  | ok (requestId : Nat)
  | invalidUserToken
  | userNotFound
  | cannotFriendSelf
  | alreadyFriends
  | requestAlreadyExists
deriving DecidableEq, Repr

/-- Source: `sendFriendRequest` in `convex/friends.ts` (lines 8-82).  The
duplicate check takes `.first()` of the `by_users` index in each
direction — i.e. the oldest request row between the pair — and rejects
only when that row is `pending`; any other outcome falls through to the
insert. -/
def sendFriendRequest (db : DB) (toUsername userToken : String) (now : Nat) :
    FROutcome × DB :=
  match findUserByToken db userToken with
  | none => (.invalidUserToken, db)
  | some fromUser =>
    match findUserByName db toUsername with
    | none => (.userNotFound, db)
    | some toUser =>
      if fromUser.id == toUser.id then (.cannotFriendSelf, db)
      else
        match existingFriendship db fromUser.id toUser.id with
        | some _ => (.alreadyFriends, db)
        | none =>
          let inserted : FROutcome × DB :=
            (.ok db.nextId,
              { db with
                friendRequests := db.friendRequests ++
                  [{ id := db.nextId
                     fromUserId := fromUser.id
                     toUserId := toUser.id
                     status := FRStatus.pending
                     createdAt := now
                     updatedAt := now }]
                nextId := db.nextId + 1 })
          match existingFriendRequest db fromUser.id toUser.id with
          | some existingRequest =>
            if existingRequest.status == FRStatus.pending then
              (.requestAlreadyExists, db)
            else inserted
          | none => inserted

/-- The `v.union(v.literal("accepted"), v.literal("rejected"))` argument
of `respondToFriendRequest`. -/
inductive FRDecision where
  | accepted
  | rejected
deriving DecidableEq, Repr

/-- Source: `respondToFriendRequest` in `convex/friends.ts`
(lines 85-138). -/
def respondToFriendRequest (db : DB) (requestId : Nat) (response : FRDecision)
    (userToken : String) (now : Nat) : Except Err DB :=
  match findUserByToken db userToken with
  | none => .error .invalidUserToken
  | some user =>
    match db.friendRequests.find? (fun r => r.id == requestId) with
    | none => .error .friendRequestNotFound
    | some request =>
      if !(request.toUserId == user.id) then .error .notYourFriendRequest
      else if !(request.status == FRStatus.pending) then
        .error .friendRequestAlreadyResponded
      else
        let st := match response with
          | .accepted => FRStatus.accepted
          | .rejected => FRStatus.rejected
        let db1 := { db with
          friendRequests := db.friendRequests.map (fun r =>
            if r.id == requestId then { r with status := st, updatedAt := now }
            else r) }
        match response with
        | .rejected => .ok db1
        | .accepted =>
          let user1Id := if request.fromUserId < request.toUserId then
            request.fromUserId else request.toUserId
          let user2Id := if request.fromUserId < request.toUserId then
            request.toUserId else request.fromUserId
          .ok { db1 with
            friendships := db1.friendships ++
              [{ id := db1.nextId
                 user1Id := user1Id
                 user2Id := user2Id
                 createdAt := now }]
            nextId := db1.nextId + 1 }

/-- State produced by the delete-then-insert of `livePings.send`
(`livePings.ts` lines 24-37): every ping with the same
(target, pinger) pair is deleted and a fresh `sent` ping is inserted. -/
def pingSendState (db : DB) (fromSessionId toSessionId : String) : DB :=
  { db with
    livePings := (db.livePings.filter (fun p =>
        !(p.targetSessionId == toSessionId
          && p.pingerSessionId == fromSessionId))) ++
      [{ id := db.nextId
         pingerSessionId := fromSessionId
         targetSessionId := toSessionId
         status := PingStatus.sent }]
    nextId := db.nextId + 1 }

/-- Source: `send` in `convex/livePings.ts` (lines 9-41): after validating
the token, deletes every ping with the same (target, pinger) pair and
inserts a fresh `sent` ping. -/
def livePingsSend (db : DB) (fromSessionId toSessionId userToken : String) :
    Except Err (Nat × DB) :=
  match findUserByToken db userToken with
  | none => .error .invalidUserToken
  | some _user =>
    .ok (db.nextId, pingSendState db fromSessionId toSessionId)

/-- Source: `respond` in `convex/livePings.ts` (lines 44-58): patches the
ping to `responded` when it still exists, and silently succeeds when it
does not. -/
def livePingsRespond (db : DB) (pingId : Nat) (userToken : String) :
    Except Err DB :=
  match findUserByToken db userToken with
  | none => .error .invalidUserToken
  | some _user =>
    match db.livePings.find? (fun p => p.id == pingId) with
    | none => .ok db
    | some _ping =>
      .ok { db with
        livePings := db.livePings.map (fun p =>
          if p.id == pingId then { p with status := PingStatus.responded }
          else p) }

/-- Convex transaction semantics for a mutation returning no payload: a
thrown `ConvexError` aborts the transaction, so the database is
unchanged on the error branch. -/
def commit (db : DB) (r : Except Err DB) : DB :=
  match r with
  | .ok d => d
  | .error _ => db

/-- Convex transaction semantics for a mutation returning an id. -/
def commitP (db : DB) (r : Except Err (Nat × DB)) : DB :=
  match r with
  | .ok p => p.2
  | .error _ => db

/-! Concrete worlds used by the counterexamples and witnesses.  `alice`
and `bob` are friends; `carol` is friends with neither.  Each account
owns one active session. -/

/-- Account alice, bearer token `tA`. -/
def uAlice : User := { id := 0, username := "alice", token := "tA", createdAt := 0 }

/-- Account bob, bearer token `tB`. -/
def uBob : User := { id := 1, username := "bob", token := "tB", createdAt := 0 }

/-- Account carol, bearer token `tC`. -/
def uCarol : User := { id := 2, username := "carol", token := "tC", createdAt := 0 }

/-- Session `S1`, owned by alice, active, last heartbeat at time 0. -/
def sAlice : Session :=
  { id := 10, sessionId := "S1", userId := 0, userToken := "tA"
    isActive := true, lastPing := 0, createdAt := 0, updatedAt := 0 }

/-- Session `S2`, owned by bob, active. -/
def sBob : Session :=
  { id := 11, sessionId := "S2", userId := 1, userToken := "tB"
    isActive := true, lastPing := 0, createdAt := 0, updatedAt := 0 }

/-- Session `S3`, owned by carol, active. -/
def sCarol : Session :=
  { id := 12, sessionId := "S3", userId := 2, userToken := "tC"
    isActive := true, lastPing := 0, createdAt := 0, updatedAt := 0 }

/-- The alice-bob friendship edge. -/
def fAB : Friendship := { id := 20, user1Id := 0, user2Id := 1, createdAt := 0 }

/-- Base world: three accounts, three active sessions, alice-bob
friendship, no requests and no pings. -/
def dbBase : DB :=
  { users := [uAlice, uBob, uCarol]
    sessions := [sAlice, sBob, sCarol]
    friendships := [fAB]
    friendRequests := []
    connectionRequests := []
    livePings := []
    nextId := 100 }

/-- World after alice opened a connection request toward bob's session
`S2` (request id 100, status `sent`). -/
def dbSent : DB := commitP dbBase (sendConnectionRequest dbBase "S2" "tA" "offer1" 5)

/-- World after bob replied to request 100 (status `replied`). -/
def dbReplied : DB := commit dbSent (replyToConnectionRequest dbSent 100 "tB" "answer1" 6)

/-- Friend-request trace, step 1: alice sends carol a friend request
(id 100, `pending`). -/
def dbFr1 : DB := (sendFriendRequest dbBase "carol" "tA" 1).2

/-- Friend-request trace, step 2: carol rejects request 100. -/
def dbFr2 : DB := commit dbFr1 (respondToFriendRequest dbFr1 100 FRDecision.rejected "tC" 2)

/-- Friend-request trace, step 3: alice sends carol another friend
request (id 101, `pending`). -/
def dbFr3 : DB := (sendFriendRequest dbFr2 "carol" "tA" 3).2

/-- Friend-request trace, step 4: alice sends carol yet another friend
request (id 102, `pending` as well). -/
def dbFr4 : DB := (sendFriendRequest dbFr3 "carol" "tA" 4).2

/-- World after one liveness ping from `S1` to `S2` (ping id 100). -/
def dbPing1 : DB := commitP dbBase (livePingsSend dbBase "S1" "S2" "tA")

/-- World after a second liveness ping from `S1` to `S2` (ping id 101;
ping 100 superseded and deleted). -/
def dbPing2 : DB := commitP dbPing1 (livePingsSend dbPing1 "S1" "S2" "tA")

/-- Patching the row found under a key-preserving update is found again,
already patched: the Convex `ctx.db.patch`-by-id pattern over a
creation-ordered table. -/
theorem find?_map_patch {α : Type} (key : α → Nat) (f : α → α) (rid : Nat)
    (hid : ∀ x, key (f x) = key x) :
    ∀ (l : List α) (r : α), l.find? (fun x => key x == rid) = some r →
      (l.map (fun x => if key x == rid then f x else x)).find?
        (fun x => key x == rid) = some (f r) := by
  intro l
  induction l with
  | nil => intro r h; simp at h
  | cons a t ih =>
    intro r h
    cases hpa : (key a == rid) with
    | false =>
      rw [List.find?_cons_of_neg _ (by simp [hpa])] at h
      simp only [List.map_cons, if_neg (by simp [hpa] : ¬(key a == rid) = true)]
      rw [List.find?_cons_of_neg _ (by simp [hpa])]
      exact ih r h
    | true =>
      rw [List.find?_cons_of_pos _ (by simp [hpa])] at h
      cases h
      simp only [List.map_cons, if_pos hpa]
      rw [List.find?_cons_of_pos _ (by simp [hid, hpa])]

/-- C1 counterexample: in `dbReplied` the only request for the ordered
pair (`S1`, `S2`) is non-terminal (`replied`), yet `sendConnectionRequest`
for the same pair succeeds instead of failing with the duplicate-request
error, leaving two outstanding (non-`completed`) requests for the pair:
the duplicate check of `webrtc_signaling.ts` line 72 filters on status
`"sent"` only. -/
theorem c1_counterexample :
    dbReplied.connectionRequests.map
        (fun r => (r.fromSessionId, r.toSessionId, r.status)) =
      [("S1", "S2", CRStatus.replied)]
    ∧ sendConnectionRequest dbReplied "S2" "tA" "offer2" 7 =
        .ok (101, connInsert dbReplied "S2" "S1" "alice" "offer2" 7)
    ∧ ((commitP dbReplied
          (sendConnectionRequest dbReplied "S2" "tA" "offer2" 7)).connectionRequests.filter
        (fun r => r.fromSessionId == "S1" && r.toSessionId == "S2"
          && !(r.status == CRStatus.completed))).length = 2 :=
  ⟨rfl, rfl, rfl⟩

/-- C2 counterexample: carol's credential is valid but carol does not own
session `S2` (bob does), yet `getSentConnectionRequests` with carol's
token and handle `S2` returns the request addressed to `S2` instead of
failing Unauthorized: the handler never checks ownership of the supplied
session id. -/
theorem c2_counterexample :
    findUserByToken dbSent "tC" = some uCarol
    ∧ (findSessionBySessionId dbSent "S2").map (fun s => s.userId) = some uBob.id
    ∧ uCarol.id ≠ uBob.id
    ∧ getSentConnectionRequests dbSent "tC" "S2" =
        .ok [{ id := 100, toSessionId := "S2", fromSessionId := "S1"
               fromUsername := "alice", requestData := "offer1"
               responseData := none, status := CRStatus.sent
               createdAt := 5, updatedAt := 5 }] :=
  ⟨rfl, rfl, by decide, rfl⟩

/-- C3 counterexample: carol (account id 2) owns neither `S1` (owned by
account 0) nor `S2` (owned by account 1), yet `markConnectionCompleted`
with carol's valid credential succeeds and flips request 100 to
`completed`: the handler checks only token validity and request
existence. -/
theorem c3_counterexample :
    findUserByToken dbSent "tC" = some uCarol
    ∧ (findSessionBySessionId dbSent "S1").map (fun s => s.userId) = some 0
    ∧ (findSessionBySessionId dbSent "S2").map (fun s => s.userId) = some 1
    ∧ uCarol.id ≠ 0 ∧ uCarol.id ≠ 1
    ∧ (getConnReq dbSent 100).map
        (fun r => (r.fromSessionId, r.toSessionId, r.status)) =
      some ("S1", "S2", CRStatus.sent)
    ∧ markConnectionCompleted dbSent 100 "tC" 8 = .ok (completePatch dbSent 100 8)
    ∧ (getConnReq (completePatch dbSent 100 8) 100).map (fun r => r.status) =
        some CRStatus.completed :=
  ⟨rfl, rfl, rfl, by decide, by decide, rfl, rfl, rfl⟩

/-- C4 counterexample: `S1` is active with its last heartbeat at time 0;
at a read time of 10^9 ms its heartbeat age far exceeds the 60s staleness
threshold, yet `getUserSessions` still returns it — the self listing
filters on the active flag only and never consults heartbeat age (it does
not even receive the current time). -/
theorem c4_counterexample :
    sAlice.isActive = true
    ∧ sAlice.lastPing = 0
    ∧ getUserSessions dbBase "tA" =
        .ok [{ sessionId := "S1", lastPing := 0, createdAt := 0 }]
    ∧ 60000 ≤ 1000000000 - sAlice.lastPing :=
  ⟨rfl, rfl, rfl, by decide⟩

/-- C5 counterexample: after alice's request to carol is rejected, two
further `sendFriendRequest` calls both succeed, because the duplicate
check reads only the oldest row between the pair (the rejected one);
the final state holds two `pending` requests between the unordered pair
(alice, carol), violating the at-most-one-pending invariant. -/
theorem c5_counterexample :
    (sendFriendRequest dbBase "carol" "tA" 1).1 = FROutcome.ok 100
    ∧ respondToFriendRequest dbFr1 100 FRDecision.rejected "tC" 2 = .ok dbFr2
    ∧ (sendFriendRequest dbFr2 "carol" "tA" 3).1 = FROutcome.ok 101
    ∧ (sendFriendRequest dbFr3 "carol" "tA" 4).1 = FROutcome.ok 102
    ∧ (dbFr4.friendRequests.filter (fun r =>
        r.status == FRStatus.pending
          && ((r.fromUserId == uAlice.id && r.toUserId == uCarol.id)
            || (r.fromUserId == uCarol.id && r.toUserId == uAlice.id)))).length = 2 :=
  ⟨rfl, rfl, rfl, rfl, rfl⟩

/-- C2 (amended): with any valid credential, `getSentConnectionRequests`
returns exactly the requests addressed to the caller-supplied session
handle with status `sent`; ownership of the handle is never checked, so
the listing is the same for every authenticated account. -/
theorem getSentConnectionRequests_no_ownership_check :
    ∀ (db : DB) (tok sid : String) (u : User),
      findUserByToken db tok = some u →
      getSentConnectionRequests db tok sid =
        .ok (db.connectionRequests.filter (fun r =>
          r.toSessionId == sid && r.status == CRStatus.sent))
      ∧ ∀ r : ConnReq,
          r ∈ db.connectionRequests.filter (fun r =>
            r.toSessionId == sid && r.status == CRStatus.sent)
          ↔ r ∈ db.connectionRequests ∧ r.toSessionId = sid
              ∧ r.status = CRStatus.sent := by
  intro db tok sid u hu
  constructor
  · unfold getSentConnectionRequests
    rw [hu]
  · intro r
    simp [List.mem_filter]

/-- C2 witness: carol's valid credential suffices to read the request
addressed to bob's session `S2`, which carol does not own. -/
theorem c2_witness :
    getSentConnectionRequests dbSent "tC" "S2" =
      .ok (dbSent.connectionRequests.filter (fun r =>
        r.toSessionId == "S2" && r.status == CRStatus.sent))
    ∧ ({ id := 100, toSessionId := "S2", fromSessionId := "S1"
         fromUsername := "alice", requestData := "offer1"
         responseData := none, status := CRStatus.sent
         createdAt := 5, updatedAt := 5 } : ConnReq) ∈
        dbSent.connectionRequests.filter (fun r =>
          r.toSessionId == "S2" && r.status == CRStatus.sent) := by
  have h := getSentConnectionRequests_no_ownership_check dbSent "tC" "S2" uCarol rfl
  exact ⟨h.1, (h.2 _).mpr ⟨by decide, rfl, rfl⟩⟩

/-- C3 (amended): `markConnectionCompleted` requires only that the bearer
token names some account and that the request exists; any authenticated
account, including one owning neither participant session, marks the
request `completed`. -/
theorem markConnectionCompleted_any_valid_token :
    ∀ (db : DB) (rid : Nat) (tok : String) (now : Nat) (u : User) (r : ConnReq),
      findUserByToken db tok = some u →
      getConnReq db rid = some r →
      markConnectionCompleted db rid tok now = .ok (completePatch db rid now)
      ∧ getConnReq (completePatch db rid now) rid =
          some { r with status := CRStatus.completed, updatedAt := now } := by
  intro db rid tok now u r hu hr
  constructor
  · unfold markConnectionCompleted
    rw [hu, hr]
  · have hr' : db.connectionRequests.find? (fun x => x.id == rid) = some r := hr
    exact find?_map_patch (fun x => x.id)
      (fun x => { x with status := CRStatus.completed, updatedAt := now }) rid
      (fun _ => rfl) db.connectionRequests r hr'

/-- C3 witness: carol, owner of neither `S1` nor `S2`, completes request
100 between them. -/
theorem c3_witness :
    markConnectionCompleted dbSent 100 "tC" 8 = .ok (completePatch dbSent 100 8)
    ∧ getConnReq (completePatch dbSent 100 8) 100 =
        some { id := 100, toSessionId := "S2", fromSessionId := "S1"
               fromUsername := "alice", requestData := "offer1"
               responseData := none, status := CRStatus.completed
               createdAt := 5, updatedAt := 8 } :=
  markConnectionCompleted_any_valid_token dbSent 100 "tC" 8 uCarol
    { id := 100, toSessionId := "S2", fromSessionId := "S1"
      fromUsername := "alice", requestData := "offer1"
      responseData := none, status := CRStatus.sent
      createdAt := 5, updatedAt := 5 } rfl rfl

/-- C4 (amended): with a valid credential, `getUserSessions` returns
exactly the caller's sessions whose active flag is set, projected to
(sessionId, lastPing, createdAt); heartbeat age is not consulted, so a
stale-heartbeat active session is still listed. -/
theorem getUserSessions_active_only :
    ∀ (db : DB) (tok : String) (u : User),
      findUserByToken db tok = some u →
      getUserSessions db tok =
        .ok ((db.sessions.filter (fun s => s.userId == u.id && s.isActive)).map
          (fun s => { sessionId := s.sessionId, lastPing := s.lastPing
                      createdAt := s.createdAt }))
      ∧ ∀ x : SessionInfo,
          x ∈ (db.sessions.filter (fun s => s.userId == u.id && s.isActive)).map
            (fun s => { sessionId := s.sessionId, lastPing := s.lastPing
                        createdAt := s.createdAt })
          ↔ ∃ s : Session, s ∈ db.sessions ∧ s.userId = u.id ∧ s.isActive = true
              ∧ x = { sessionId := s.sessionId, lastPing := s.lastPing
                      createdAt := s.createdAt } := by
  intro db tok u hu
  constructor
  · unfold getUserSessions
    rw [hu]
  · intro x
    simp only [List.mem_map, List.mem_filter, Bool.and_eq_true, beq_iff_eq]
    constructor
    · rintro ⟨s, ⟨hs, h1, h2⟩, rfl⟩
      exact ⟨s, hs, h1, h2, rfl⟩
    · rintro ⟨s, hs, h1, h2, rfl⟩
      exact ⟨s, ⟨hs, h1, h2⟩, rfl⟩

/-- C4 witness: alice's session `S1`, active with heartbeat age unbounded
(lastPing 0), is in the self listing. -/
theorem c4_witness :
    getUserSessions dbBase "tA" =
      .ok ((dbBase.sessions.filter (fun s => s.userId == uAlice.id && s.isActive)).map
        (fun s => { sessionId := s.sessionId, lastPing := s.lastPing
                    createdAt := s.createdAt }))
    ∧ ({ sessionId := "S1", lastPing := 0, createdAt := 0 } : SessionInfo) ∈
        (dbBase.sessions.filter (fun s => s.userId == uAlice.id && s.isActive)).map
          (fun s => { sessionId := s.sessionId, lastPing := s.lastPing
                      createdAt := s.createdAt }) := by
  have h := getUserSessions_active_only dbBase "tA" uAlice rfl
  exact ⟨h.1, (h.2 _).mpr ⟨sAlice, by decide, rfl, rfl, rfl⟩⟩

/-- C10: a missing session handle makes `deactivateSession` succeed with
the state unchanged before the credential is ever examined — the token
argument is arbitrary, even invalid — and an error (the owner-mismatch
rejection) is reachable only when the session row exists. -/
theorem deactivateSession_missing_session :
    ∀ (db : DB) (sid tok : String),
      (findSessionBySessionId db sid = none →
        deactivateSession db sid tok = .ok db)
      ∧ (∀ e : Err, deactivateSession db sid tok = .error e →
          (findSessionBySessionId db sid).isSome = true) := by
  intro db sid tok
  constructor
  · intro h
    unfold deactivateSession
    rw [h]
  · intro e h
    unfold deactivateSession at h
    cases hf : findSessionBySessionId db sid with
    | none => rw [hf] at h; cases h
    | some s => rfl

/-- C10 witness: no session `S9` exists in `dbBase`; deactivation with a
token string that matches no account still succeeds and changes
nothing. -/
theorem c10_witness :
    deactivateSession dbBase "S9" "not-a-real-token" = .ok dbBase :=
  (deactivateSession_missing_session dbBase "S9" "not-a-real-token").1 rfl

/-- C6: when the caller's account and the target session's owning account
are not friends, `sendConnectionRequest` fails with the friends-only
error and the transaction leaves the state unchanged, so no
connectionRequests row is created. -/
theorem sendConnectionRequest_friends_only :
    ∀ (db : DB) (toSid tok offer : String) (now : Nat) (u fs ts : _) (tu : User),
      findUserByToken db tok = some u →
      firstActiveSessionForToken db tok = some fs →
      findSessionBySessionId db toSid = some ts →
      ts.isActive = true →
      getUserById db ts.userId = some tu →
      verifyFriendship db u.id tu.id = false →
      sendConnectionRequest db toSid tok offer now = .error .onlyConnectToFriends
      ∧ commitP db (sendConnectionRequest db toSid tok offer now) = db := by
  intro db toSid tok offer now u fs ts tu hu hfs hts hact htu hnf
  have h : sendConnectionRequest db toSid tok offer now = .error .onlyConnectToFriends := by
    unfold sendConnectionRequest
    rw [hu, hfs, hts]
    simp [hact, htu, hnf]
  refine ⟨h, ?_⟩
  unfold commitP
  rw [h]

/-- C6 witness: alice and carol are not friends in `dbBase`; alice's
attempt to signal carol's live session `S3` is rejected with the
friends-only error and the state is unchanged. -/
theorem c6_witness :
    sendConnectionRequest dbBase "S3" "tA" "offer" 1 = .error .onlyConnectToFriends
    ∧ commitP dbBase (sendConnectionRequest dbBase "S3" "tA" "offer" 1) = dbBase :=
  sendConnectionRequest_friends_only dbBase "S3" "tA" "offer" 1 uAlice sAlice
    sCarol uCarol rfl rfl rfl rfl rfl rfl

/-- C9: whenever `sendConnectionRequest` succeeds, the recorded source
session is the first active session row matching the caller's
credential — the operation takes no source-session parameter, so a
caller with several active sessions cannot choose which one is
recorded. -/
theorem sendConnectionRequest_source_is_first_active :
    ∀ (db : DB) (toSid tok offer : String) (now rid : Nat) (db2 : DB),
      sendConnectionRequest db toSid tok offer now = .ok (rid, db2) →
      db2.connectionRequests.getLast?.map (fun r => r.fromSessionId) =
        (firstActiveSessionForToken db tok).map (fun s => s.sessionId)
      ∧ db2.connectionRequests.length = db.connectionRequests.length + 1 := by
  intro db toSid tok offer now rid db2 h
  unfold sendConnectionRequest at h
  repeat' split at h
  all_goals cases h
  simp_all [connInsert, List.getLast?_concat]

/-- C9 witness: alice holds the first active session `S1` for token
`tA`; her successful request toward `S2` records `S1` as the source. -/
theorem c9_witness :
    dbSent.connectionRequests.getLast?.map (fun r => r.fromSessionId) =
      (firstActiveSessionForToken dbBase "tA").map (fun s => s.sessionId)
    ∧ dbSent.connectionRequests.length = dbBase.connectionRequests.length + 1 :=
  sendConnectionRequest_source_is_first_active dbBase "S2" "tA" "offer1" 5
    100 dbSent rfl

/-- C7: on a `sent` request, the target-session owner's first reply
succeeds, moves the status to `replied` and stores the answer payload;
any second reply to the same request then fails with the invalid-state
error (the patched row is no longer `sent`), leaving the stored status
and counter-payload untouched since the erroring transaction writes
nothing. -/
theorem replyToConnectionRequest_once :
    ∀ (db : DB) (rid : Nat) (tok ans : String) (now : Nat)
      (u : User) (s : Session) (r : ConnReq),
      findUserByToken db tok = some u →
      firstActiveSessionForToken db tok = some s →
      getConnReq db rid = some r →
      r.toSessionId = s.sessionId →
      r.status = CRStatus.sent →
      replyToConnectionRequest db rid tok ans now = .ok (replyPatch db rid ans now)
      ∧ getConnReq (replyPatch db rid ans now) rid =
          some { r with
                 status := CRStatus.replied,
                 responseData := some ans,
                 updatedAt := now }
      ∧ ∀ (ans2 : String) (now2 : Nat),
          replyToConnectionRequest (replyPatch db rid ans now) rid tok ans2 now2 =
            .error .requestNotInSentState := by
  intro db rid tok ans now u s r hu hs hr htos hst
  have hr' : db.connectionRequests.find? (fun x => x.id == rid) = some r := hr
  have h2 : getConnReq (replyPatch db rid ans now) rid =
      some { r with
             status := CRStatus.replied,
             responseData := some ans,
             updatedAt := now } := by
    exact find?_map_patch (fun x => x.id)
      (fun x => { x with
                  status := CRStatus.replied,
                  responseData := some ans,
                  updatedAt := now })
      rid (fun _ => rfl) db.connectionRequests r hr'
  refine ⟨?_, h2, ?_⟩
  · simp [replyToConnectionRequest, hu, hs, hr, htos, hst]
  · intro ans2 now2
    have hu' : findUserByToken (replyPatch db rid ans now) tok = some u := hu
    have hs' : firstActiveSessionForToken (replyPatch db rid ans now) tok = some s := hs
    simp [replyToConnectionRequest, hu', hs', h2, htos]

/-- C7 witness: bob replies to request 100 once with success, and a
second reply is rejected with the invalid-state error. -/
theorem c7_witness :
    replyToConnectionRequest dbSent 100 "tB" "answer1" 6 =
      .ok (replyPatch dbSent 100 "answer1" 6)
    ∧ replyToConnectionRequest (replyPatch dbSent 100 "answer1" 6) 100 "tB"
        "answer2" 9 = .error .requestNotInSentState := by
  have h := replyToConnectionRequest_once dbSent 100 "tB" "answer1" 6 uBob sBob
    { id := 100, toSessionId := "S2", fromSessionId := "S1"
      fromUsername := "alice", requestData := "offer1"
      responseData := none, status := CRStatus.sent
      createdAt := 5, updatedAt := 5 } rfl rfl rfl rfl rfl
  exact ⟨h.1, h.2.2 "answer2" 9⟩

/-- Deleting by the (target, pinger) pair and inserting the fresh ping
leaves exactly that fresh ping as the pair's only row. -/
theorem pingSendState_pair_filter :
    ∀ (db : DB) (f t : String),
      (pingSendState db f t).livePings.filter
        (fun p => p.targetSessionId == t && p.pingerSessionId == f) =
      [{ id := db.nextId, pingerSessionId := f, targetSessionId := t
         status := PingStatus.sent }] := by
  intro db f t
  simp [pingSendState, List.filter_append, List.filter_filter]

/-- C8: two consecutive liveness pings from the same pinger session to
the same target session leave exactly one ping row for the pair — the
newer one, still `sent` — and responding to the superseded (deleted)
ping id succeeds without changing any state. -/
theorem livePings_supersession :
    ∀ (db : DB) (f t tok : String) (u : User),
      findUserByToken db tok = some u →
      (∀ p ∈ db.livePings, p.id < db.nextId) →
      livePingsSend db f t tok = .ok (db.nextId, pingSendState db f t)
      ∧ livePingsSend (pingSendState db f t) f t tok =
          .ok (db.nextId + 1, pingSendState (pingSendState db f t) f t)
      ∧ (pingSendState (pingSendState db f t) f t).livePings.filter
          (fun p => p.targetSessionId == t && p.pingerSessionId == f) =
        [{ id := db.nextId + 1, pingerSessionId := f, targetSessionId := t
           status := PingStatus.sent }]
      ∧ livePingsRespond (pingSendState (pingSendState db f t) f t) db.nextId tok =
          .ok (pingSendState (pingSendState db f t) f t) := by
  intro db f t tok u hu hfresh
  have hu1 : findUserByToken (pingSendState db f t) tok = some u := hu
  have hu2 : findUserByToken (pingSendState (pingSendState db f t) f t) tok = some u := hu
  refine ⟨?_, ?_, ?_, ?_⟩
  · simp [livePingsSend, hu]
  · simp [livePingsSend, hu1]
    rfl
  · exact pingSendState_pair_filter (pingSendState db f t) f t
  · have hnone : (pingSendState (pingSendState db f t) f t).livePings.find?
        (fun p => p.id == db.nextId) = none := by
      rw [List.find?_eq_none]
      intro p hp
      simp only [pingSendState, List.mem_append, List.mem_filter,
        List.mem_singleton] at hp
      rcases hp with ⟨hA | rfl, hC⟩ | rfl
      · obtain ⟨hmem, -⟩ := hA
        have := hfresh p hmem
        simp only [beq_iff_eq]
        omega
      · simp at hC
      · simp only [beq_iff_eq]
        omega
    simp [livePingsRespond, hu2, hnone]

/-- C8 witness: two pings from `S1` to `S2` leave only ping 101, and
responding to the superseded ping 100 is a state-preserving success. -/
theorem c8_witness :
    livePingsSend dbBase "S1" "S2" "tA" = .ok (100, pingSendState dbBase "S1" "S2")
    ∧ livePingsSend (pingSendState dbBase "S1" "S2") "S1" "S2" "tA" =
        .ok (101, pingSendState (pingSendState dbBase "S1" "S2") "S1" "S2")
    ∧ (pingSendState (pingSendState dbBase "S1" "S2") "S1" "S2").livePings.filter
        (fun p => p.targetSessionId == "S2" && p.pingerSessionId == "S1") =
      [{ id := 101, pingerSessionId := "S1", targetSessionId := "S2"
         status := PingStatus.sent }]
    ∧ livePingsRespond (pingSendState (pingSendState dbBase "S1" "S2") "S1" "S2")
        100 "tA" =
        .ok (pingSendState (pingSendState dbBase "S1" "S2") "S1" "S2") :=
  livePings_supersession dbBase "S1" "S2" "tA" uAlice rfl (by decide)

/-- A missing friendship edge is missing in both canonical orders. -/
theorem existingFriendship_none_split :
    ∀ (db : DB) (a b : Nat), existingFriendship db a b = none →
      db.friendships.find? (fun f => f.user1Id == a && f.user2Id == b) = none
      ∧ db.friendships.find? (fun f => f.user1Id == b && f.user2Id == a) = none := by
  intro db a b h
  unfold existingFriendship at h
  split at h
  · exact absurd h (by simp)
  · rename_i heq
    exact ⟨heq, h⟩

/-- A missing friend-request edge is missing in both directions. -/
theorem existingFriendRequest_none_split :
    ∀ (db : DB) (a b : Nat), existingFriendRequest db a b = none →
      db.friendRequests.find? (fun r => r.fromUserId == a && r.toUserId == b) = none
      ∧ db.friendRequests.find? (fun r => r.fromUserId == b && r.toUserId == a) = none := by
  intro db a b h
  unfold existingFriendRequest at h
  split at h
  · exact absurd h (by simp)
  · rename_i heq
    exact ⟨heq, h⟩

/-- C1 (amended): with all earlier preconditions satisfied,
`sendConnectionRequest` fails with the duplicate-request error precisely
when a request with status `sent` already exists for the ordered
(source session, target session) pair; otherwise it inserts the new
`sent` record.  A `replied` request does not block a new send, so only
`sent` rows are unique per ordered pair. -/
theorem sendConnectionRequest_duplicate_sent_iff :
    ∀ (db : DB) (toSid tok offer : String) (now : Nat) (u fs ts : _) (tu : User),
      findUserByToken db tok = some u →
      firstActiveSessionForToken db tok = some fs →
      findSessionBySessionId db toSid = some ts →
      ts.isActive = true →
      getUserById db ts.userId = some tu →
      verifyFriendship db u.id tu.id = true →
      ((∃ r ∈ db.connectionRequests, r.toSessionId = toSid
          ∧ r.status = CRStatus.sent ∧ r.fromSessionId = fs.sessionId) →
        sendConnectionRequest db toSid tok offer now =
          .error .connectionRequestAlreadyPending)
      ∧ ((∀ r ∈ db.connectionRequests, ¬(r.toSessionId = toSid
          ∧ r.status = CRStatus.sent ∧ r.fromSessionId = fs.sessionId)) →
        sendConnectionRequest db toSid tok offer now =
          .ok (db.nextId, connInsert db toSid fs.sessionId u.username offer now)) := by
  intro db toSid tok offer now u fs ts tu hu hfs hts hact htu hfr
  constructor
  · intro hex
    have hdup : (db.connectionRequests.find? (fun r =>
        r.toSessionId == toSid && r.status == CRStatus.sent
          && r.fromSessionId == fs.sessionId)).isSome = true := by
      rw [List.find?_isSome]
      obtain ⟨r, hr, h1, h2, h3⟩ := hex
      exact ⟨r, hr, by simp [h1, h2, h3]⟩
    simp [sendConnectionRequest, hu, hfs, hts, hact, htu, hfr, hdup]
  · intro hall
    have hdup : db.connectionRequests.find? (fun r =>
        r.toSessionId == toSid && r.status == CRStatus.sent
          && r.fromSessionId == fs.sessionId) = none := by
      rw [List.find?_eq_none]
      intro r hr
      have hno := hall r hr
      simp only [Bool.and_eq_true, beq_iff_eq]
      rintro ⟨⟨h1, h2⟩, h3⟩
      exact hno ⟨h1, h2, h3⟩
    simp [sendConnectionRequest, hu, hfs, hts, hact, htu, hfr, hdup]

/-- C1 witness: with request 100 still `sent` for the pair (`S1`, `S2`),
a second identical-direction send is rejected as a duplicate. -/
theorem c1_witness :
    sendConnectionRequest dbSent "S2" "tA" "offer2" 9 =
      .error .connectionRequestAlreadyPending :=
  (sendConnectionRequest_duplicate_sent_iff dbSent "S2" "tA" "offer2" 9
    uAlice sAlice sBob uBob rfl rfl rfl rfl rfl rfl).1
    ⟨{ id := 100, toSessionId := "S2", fromSessionId := "S1"
       fromUsername := "alice", requestData := "offer1"
       responseData := none, status := CRStatus.sent
       createdAt := 5, updatedAt := 5 }, by decide, rfl, rfl, rfl⟩

/-- C5 (amended): from a state with no friend-request row between the
two accounts in either direction (and no friendship), the first
`sendFriendRequest` inserts a pending request and the immediate
symmetric `sendFriendRequest` in the opposite direction is rejected with
the request-already-exists error, leaving the state unchanged. -/
theorem sendFriendRequest_symmetric_duplicate :
    ∀ (db : DB) (a b : User) (nameA nameB tokA tokB : String) (now1 now2 : Nat),
      findUserByToken db tokA = some a →
      findUserByName db nameB = some b →
      findUserByToken db tokB = some b →
      findUserByName db nameA = some a →
      a.id ≠ b.id →
      existingFriendship db a.id b.id = none →
      existingFriendRequest db a.id b.id = none →
      (sendFriendRequest db nameB tokA now1).1 = FROutcome.ok db.nextId
      ∧ sendFriendRequest (sendFriendRequest db nameB tokA now1).2 nameA tokB now2 =
          (FROutcome.requestAlreadyExists, (sendFriendRequest db nameB tokA now1).2) := by
  intro db a b nameA nameB tokA tokB now1 now2 huA hnB huB hnA hne hfs hfr
  obtain ⟨hfs1, hfs2⟩ := existingFriendship_none_split db a.id b.id hfs
  obtain ⟨hfr1, hfr2⟩ := existingFriendRequest_none_split db a.id b.id hfr
  have hne1 : (a.id == b.id) = false := by simp [hne]
  have hne2 : (b.id == a.id) = false := by simp [Ne.symm hne]
  have huB' : db.users.find? (fun u => u.token == tokB) = some b := huB
  have hnA' : db.users.find? (fun u => u.username == nameA) = some a := hnA
  have h1 : sendFriendRequest db nameB tokA now1 =
      (FROutcome.ok db.nextId,
        { db with
          friendRequests := db.friendRequests ++
            [{ id := db.nextId, fromUserId := a.id, toUserId := b.id
               status := FRStatus.pending, createdAt := now1, updatedAt := now1 }]
          nextId := db.nextId + 1 }) := by
    simp [sendFriendRequest, huA, hnB, hne1, existingFriendship, hfs1, hfs2,
      existingFriendRequest, hfr1, hfr2]
  constructor
  · simp [h1]
  · rw [h1]
    simp only [sendFriendRequest, findUserByToken, findUserByName,
      existingFriendship, existingFriendRequest, List.find?_append,
      huB', hnA', hne1, hne2, hfs1, hfs2, hfr1, hfr2]
    simp [hne1, hne2]

/-- C5 witness: alice and carol share no friendship and no request rows
in `dbBase`; alice sends carol a request, and carol's immediate
opposite-direction send is rejected as already existing. -/
theorem c5_witness :
    (sendFriendRequest dbBase "carol" "tA" 11).1 = FROutcome.ok 100
    ∧ sendFriendRequest (sendFriendRequest dbBase "carol" "tA" 11).2 "alice"
        "tC" 12 =
        (FROutcome.requestAlreadyExists,
          (sendFriendRequest dbBase "carol" "tA" 11).2) :=
  sendFriendRequest_symmetric_duplicate dbBase uAlice uCarol "alice" "carol"
    "tA" "tC" 11 12 rfl rfl rfl rfl (by decide) rfl rfl

end ChatLol
